import Mathlib

/-!
Verification of the magistrala logging facility and its instrumentation
decorators (structured, level-filtered logging plus per-service logging
middleware).  The definitions below are a shallow embedding of the Go
sources: `logger/slogger.go`, `logger/logger.go`, the users service
logging middleware, the certs service logging middleware
(`certs/api/logging.go`), the bootstrap service logging middleware, and
the message-broker session-handler logging middleware
(`pkg/messaging/handler/logging.go`).

Time is abstracted: the rendered elapsed-duration string is threaded as
an explicit parameter (`dur`), standing for `time.Since(begin).String()`.
A wrapped service is an oracle function producing the `(result, err)`
pair the Go call returns; the decorator embeddings record which wrapped
operations they actually invoke in the `svcCalls` trace field.
-/

/-- Modelled from the spec: the `Level` severity enumeration of
`logger/level.go`, which is not among the provided sources (only its
callers in `logger/slogger.go` are).  Spec section 4.1: one of
Debug, Info, Warn, Error, totally ordered. -/
inductive Level where
  | Debug
  | Info
  | Warn
  | Error
deriving DecidableEq, Repr

/-- Modelled from the spec: the fixed order Debug(0) < Info(1) < Warn(2) < Error(3). -/
def Level.rank : Level → Nat
  | .Debug => 0
  | .Info => 1
  | .Warn => 2
  | .Error => 3

/-- Modelled from the spec: `isAtLeast(candidate, threshold)` is true iff the
candidate's rank is at least the threshold's rank.  In the source this is
`Level.isAllowed`, with the operation level as receiver and the configured
threshold as argument, as in `Debug.isAllowed(l.level)`. -/
def Level.isAllowed (lvl threshold : Level) : Bool :=
  decide (threshold.rank ≤ lvl.rank)

/-- ASCII lower-casing of one character, used for case-insensitive level
parsing. -/
def asciiLowerChar (c : Char) : Char :=
  if 65 ≤ c.toNat ∧ c.toNat ≤ 90 then Char.ofNat (c.toNat + 32) else c

/-- ASCII lower-casing of a string. -/
def asciiLower (s : String) : String :=
  ⟨s.data.map asciiLowerChar⟩

/-- Modelled from the spec: `Level.UnmarshalText` of `logger/level.go`
(not among the provided sources), a case-insensitive match against
"debug", "info", "warn", "error"; any other text fails. -/
def Level.parse (s : String) : Option Level :=
  let t := asciiLower s
  if t = "debug" then some .Debug
  else if t = "info" then some .Info
  else if t = "warn" then some .Warn
  else if t = "error" then some .Error
  else none

/-- Modelled from the spec: the canonical lowercase text of a level,
inverse of parse for valid inputs. -/
def Level.toText : Level → String
  | .Debug => "debug"
  | .Info => "info"
  | .Warn => "warn"
  | .Error => "error"

/-- A Go `error` value, abstracted to its description string. -/
structure GoErr where
  msg : String
deriving DecidableEq, Repr

/-- A structured attribute value: a scalar string, a number, a sequence of
strings, or a nested group, mirroring `slog.String`, `slog.Uint64`,
`slog.Any` on a string slice, and `slog.Group`. -/
inductive AttrValue where
  | str : String → AttrValue
  | num : Nat → AttrValue
  | strs : List String → AttrValue
  | group : List (String × AttrValue) → AttrValue

/-- One emitted structured log record: severity, message, and the ordered
attribute list.  The always-present `time` stamp added by the JSON handler
is abstracted away (it carries no information the claims depend on beyond
its presence). -/
structure Record where
  level : Level
  msg : String
  attrs : List (String × AttrValue)

/-- Whether a record carries an attribute with the given key. -/
def Record.hasKey (r : Record) (k : String) : Bool :=
  r.attrs.any (fun a => a.1 == k)

/-- The state of the custom `logger` of `logger/slogger.go`: the configured
minimum level.  The underlying slog handler is constructed at
`slog.LevelDebug`, so the only gate is the explicit `isAllowed` check;
the sink is modelled by returning the list of records written. -/
structure LoggerState where
  level : Level
deriving DecidableEq, Repr

/-- `logger.Debug` of `logger/slogger.go`: gated by
`Debug.isAllowed(l.level)`; note the source passes the literal `"msg"` as
the slog message and the caller's message as a dangling unpaired argument,
which slog renders under the key `!BADKEY`. -/
def loggerDebug (l : LoggerState) (msg : String) : List Record :=
  if Level.Debug.isAllowed l.level then
    [⟨Level.Debug, "msg", [("!BADKEY", AttrValue.str msg)]⟩]
  else []

/-- `logger.Info` of `logger/slogger.go`. -/
def loggerInfo (l : LoggerState) (msg : String) : List Record :=
  if Level.Info.isAllowed l.level then [⟨Level.Info, msg, []⟩] else []

/-- `logger.Warn` of `logger/slogger.go`. -/
def loggerWarn (l : LoggerState) (msg : String) : List Record :=
  if Level.Warn.isAllowed l.level then [⟨Level.Warn, msg, []⟩] else []

/-- `logger.Error` of `logger/slogger.go`. -/
def loggerError (l : LoggerState) (msg : String) : List Record :=
  if Level.Error.isAllowed l.level then [⟨Level.Error, msg, []⟩] else []

/-- Dispatch a severity operation of the logger by its level. -/
def logCall (op : Level) (l : LoggerState) (msg : String) : List Record :=
  match op with
  | .Debug => loggerDebug l msg
  | .Info => loggerInfo l msg
  | .Warn => loggerWarn l msg
  | .Error => loggerError l msg

/-- The Go constant `time.RFC3339Nano`: a format layout string, not a
timestamp. -/
def rfc3339NanoLayout : String := "2006-01-02T15:04:05.999999999Z07:00"

/-- Modelled from the spec: the description of the ParseError produced by
`Level.UnmarshalText` for invalid text (`logger/level.go` is not among the
provided sources). -/
def levelParseErrText : String := "invalid log level"

/-- The hand-formatted construction-failure diagnostic of
`logger/slogger.go` New: the `fmt.Errorf` format string
`{"level":"error","message":"%s: %s","ts":"%s"}` applied to the parse
error, the offending text, and the constant `time.RFC3339Nano`. -/
def configErrorString (levelText : String) : String :=
  "\x7b\"level\":\"error\",\"message\":\"" ++ levelParseErrText ++ ": " ++ levelText
    ++ "\",\"ts\":\"" ++ rfc3339NanoLayout ++ "\"\x7d"

/-- `New` of `logger/slogger.go`: parse the level text; on failure return
the diagnostic error, on success a logger with the parsed threshold.
The `now` parameter is the RFC3339 rendering of the construction instant,
supplied by the environment; the source never reads the clock, so the
output cannot depend on it. -/
def loggerNew (now levelText : String) : Except String LoggerState :=
  match Level.parse levelText with
  | none => .error (configErrorString levelText)
  | some lvl => .ok ⟨lvl⟩

/-- The outcome of one decorated call: the result and error handed back to
the caller, the records emitted through the logger, and the trace of
wrapped-service operations the decorator actually invoked. -/
structure CallOutcome (ρ : Type) where
  result : ρ
  err : Option GoErr
  emitted : List Record
  svcCalls : List String

/-- A client of the users service, restricted to the fields the logging
middleware reads. -/
structure Client where
  name : String
  id : String
deriving DecidableEq, Repr

/-- An authentication token, restricted to the field the logging middleware
reads.  The wrapped `IssueToken` returns a *pointer* to it, modelled as
`Option Token` with `none` for nil. -/
structure Token where
  accessType : String
deriving DecidableEq, Repr

/-- A certificate of the certs service (no field of it is read by the
logging middleware). -/
structure Cert where
  serial : String
deriving DecidableEq, Repr

/-- A bootstrap configuration, restricted to the field the logging
middleware reads. -/
structure BootConfig where
  thingID : String
deriving DecidableEq, Repr

/-- The Go runtime panic message for dereferencing a nil pointer. -/
def goPanicNilDeref : String :=
  "runtime error: invalid memory address or nil pointer dereference"

/-- `loggingMiddleware.RegisterClient` of the users service middleware:
delegate to the wrapped service, then (in the deferred closure) build
`duration` plus the `user` group drawn from the result and emit one
Warn record (with an appended `error` field) on failure or one Info
record on success, returning the wrapped result and error unchanged. -/
def usersRegisterClient (svc : String → Client → Client × Option GoErr)
    (dur token : String) (client : Client) : CallOutcome Client :=
  let c := (svc token client).1
  let err := (svc token client).2
  let args := [("duration", AttrValue.str dur),
    ("user", AttrValue.group [("name", AttrValue.str c.name), ("id", AttrValue.str c.id)])]
  match err with
  | some e =>
    ⟨c, some e,
      [⟨Level.Warn, "Register client failed to complete successfully",
        args ++ [("error", AttrValue.str e.msg)]⟩], ["RegisterClient"]⟩
  | none =>
    ⟨c, none, [⟨Level.Info, "Register client completed successfully", args⟩],
      ["RegisterClient"]⟩

/-- `loggingMiddleware.IssueToken` of the users service middleware: the
deferred closure evaluates `t.AccessType` on the returned token pointer
with no nil check, so a nil token aborts the call with a nil-pointer
panic (`Except.error`); otherwise `access_type` is appended only when
non-empty, an `error` field is appended on failure, and the wrapped
result and error are returned unchanged. -/
def usersIssueToken (svc : String → String → String → Option Token × Option GoErr)
    (dur identity secret domainID : String) :
    Except String (CallOutcome (Option Token)) :=
  let t := (svc identity secret domainID).1
  let err := (svc identity secret domainID).2
  let args := [("duration", AttrValue.str dur), ("domain_id", AttrValue.str domainID)]
  match t with
  | none => .error goPanicNilDeref
  | some tok =>
    let args := if tok.accessType ≠ "" then
        args ++ [("access_type", AttrValue.str tok.accessType)]
      else args
    match err with
    | some e =>
      .ok ⟨t, some e,
        [⟨Level.Warn, "Issue token failed to complete successfully",
          args ++ [("error", AttrValue.str e.msg)]⟩], ["IssueToken"]⟩
    | none =>
      .ok ⟨t, none, [⟨Level.Info, "Issue token completed successfully", args⟩],
        ["IssueToken"]⟩

/-- `loggingMiddleware.IssueCert` of `certs/api/logging.go`: on failure one
Warn record with message "Method issue_cert completed with error." whose
attributes are `error` then `duration`; on success one Info record with
message "Method issue_cert completed without errors." carrying the
input-derived `thing_id`, `token`, `ttl` and `duration`. -/
def certsIssueCert (svc : String → String → String → Cert × Option GoErr)
    (dur token thingID ttl : String) : CallOutcome Cert :=
  let c := (svc token thingID ttl).1
  let err := (svc token thingID ttl).2
  match err with
  | some e =>
    ⟨c, some e,
      [⟨Level.Warn, "Method issue_cert completed with error.",
        [("error", AttrValue.str e.msg), ("duration", AttrValue.str dur)]⟩],
      ["IssueCert"]⟩
  | none =>
    ⟨c, none,
      [⟨Level.Info, "Method issue_cert completed without errors.",
        [("thing_id", AttrValue.str thingID), ("token", AttrValue.str token),
         ("ttl", AttrValue.str ttl), ("duration", AttrValue.str dur)]⟩],
      ["IssueCert"]⟩

/-- `loggingMiddleware.Add` of the bootstrap service middleware: delegate,
then emit one record carrying `duration` and the result-derived
`thing_id` (the zero value when the call failed), Warn with an `error`
field on failure and Info on success. -/
def bootstrapAdd (svc : String → BootConfig → BootConfig × Option GoErr)
    (dur token : String) (cfg : BootConfig) : CallOutcome BootConfig :=
  let saved := (svc token cfg).1
  let err := (svc token cfg).2
  let args := [("duration", AttrValue.str dur), ("thing_id", AttrValue.str saved.thingID)]
  match err with
  | some e =>
    ⟨saved, some e,
      [⟨Level.Warn, "Add failed to complete successfully",
        args ++ [("error", AttrValue.str e.msg)]⟩], ["Add"]⟩
  | none =>
    ⟨saved, none, [⟨Level.Info, "Add completed successfully", args⟩], ["Add"]⟩

/-- `loggingMiddleware.logAction` of `pkg/messaging/handler/logging.go`:
the named return `err` is never assigned and the function body is
`return nil`, so the deferred closure always takes the success branch and
the caller always receives nil. -/
def logAction (dur action : String) (topics : Option (List String)) :
    Option GoErr × List Record :=
  let err : Option GoErr := none
  let args := [("duration", AttrValue.str dur)]
  let args := match topics with
    | some ts => args ++ [("topics", AttrValue.strs ts)]
    | none => args
  match err with
  | some e =>
    (some e, [⟨Level.Warn, action ++ "() failed to complete successfully",
      args ++ [("error", AttrValue.str e.msg)]⟩])
  | none =>
    (none, [⟨Level.Info, action ++ "() completed successfully", args⟩])

/-- `loggingMiddleware.Publish` of `pkg/messaging/handler/logging.go`: the
body is just `return lm.logAction(ctx, "Publish", &[]string{*topic})` —
the wrapped handler `lm.svc` is never invoked, so the trace of wrapped
calls is empty whatever the wrapped handler would return. -/
def handlerPublish (svc : String → Option GoErr) (dur topic : String) :
    CallOutcome Unit :=
  let r := logAction dur "Publish" (some [topic])
  ⟨(), r.1, r.2, []⟩

/-- Whether `suf` is a suffix of `s`, character-wise. -/
def strEndsWith (s suf : String) : Bool :=
  suf.data.isSuffixOf s.data

/-- A wrapped publish handler that fails. -/
def svcPublishFail : String → Option GoErr := fun _ => some ⟨"publish failed"⟩

/-- A wrapped RegisterClient that fails with "not found", returning the
zero-value client. -/
def svcRegisterFail : String → Client → Client × Option GoErr :=
  fun _ _ => (⟨"", ""⟩, some ⟨"not found"⟩)

/-- A wrapped RegisterClient that succeeds, assigning an id. -/
def svcRegisterOk : String → Client → Client × Option GoErr :=
  fun _ client => (⟨client.name, "u-1"⟩, none)

/-- A wrapped IssueToken that fails, returning a nil token pointer. -/
def svcTokenNilFail : String → String → String → Option Token × Option GoErr :=
  fun _ _ _ => (none, some ⟨"authentication failed"⟩)

/-- A wrapped IssueToken that fails, returning a non-nil zero-value token. -/
def svcTokenZeroFail : String → String → String → Option Token × Option GoErr :=
  fun _ _ _ => (some ⟨""⟩, some ⟨"authentication failed"⟩)

/-- A wrapped IssueToken that succeeds with a bearer token. -/
def svcTokenBearerOk : String → String → String → Option Token × Option GoErr :=
  fun _ _ _ => (some ⟨"bearer"⟩, none)

/-- A wrapped IssueCert that fails. -/
def svcCertFail : String → String → String → Cert × Option GoErr :=
  fun _ _ _ => (⟨""⟩, some ⟨"unauthorized"⟩)

/-- A wrapped IssueCert that succeeds. -/
def svcCertOk : String → String → String → Cert × Option GoErr :=
  fun _ _ _ => (⟨"serial-1"⟩, none)

/-- A wrapped bootstrap Add that fails, returning the zero-value config. -/
def svcBootFail : String → BootConfig → BootConfig × Option GoErr :=
  fun _ _ => (⟨""⟩, some ⟨"conflict"⟩)

/-- A wrapped bootstrap Add that succeeds. -/
def svcBootOk : String → BootConfig → BootConfig × Option GoErr :=
  fun _ cfg => (cfg, none)

/-- C1: the session-handler decorator's Publish never invokes the wrapped
handler (its trace of wrapped calls is empty) and hands nil back to the
caller even when the wrapped handler would fail, emitting a success
record; the users decorator's RegisterClient, by contrast, invokes the
wrapped service exactly once and passes its error through unchanged. -/
theorem publish_ignores_wrapped_service :
    (handlerPublish svcPublishFail "1ms" "devices/1").svcCalls = [] ∧
    (handlerPublish svcPublishFail "1ms" "devices/1").err = none ∧
    (handlerPublish svcPublishFail "1ms" "devices/1").emitted.map
      (fun r => (r.level, r.msg)) =
      [(Level.Info, "Publish() completed successfully")] ∧
    (usersRegisterClient svcRegisterFail "1ms" "tok" ⟨"jane", "u-1"⟩).svcCalls =
      ["RegisterClient"] ∧
    (usersRegisterClient svcRegisterFail "1ms" "tok" ⟨"jane", "u-1"⟩).err =
      some ⟨"not found"⟩ :=
  ⟨rfl, rfl, rfl, rfl, rfl⟩

/-- C2: when the wrapped IssueToken returns a nil token pointer together
with an error, the decorator aborts with a nil-pointer panic instead of
completing normally and passing the error through; with a non-nil token
it completes normally. -/
theorem issueToken_nil_token_panics :
    usersIssueToken svcTokenNilFail "1ms" "user" "secret" "dom" =
      Except.error goPanicNilDeref ∧
    (usersIssueToken svcTokenBearerOk "1ms" "user" "secret" "dom").toOption.isSome =
      true :=
  ⟨rfl, rfl⟩

/-- C7: for every severity operation and every configured threshold, a call
strictly below the threshold writes nothing and a call at or above it
writes exactly one record; in particular with threshold Warn, debug and
info write zero records while warn and error each write one. -/
theorem threshold_gates_emission (op t : Level) (msg : String) :
    (logCall op ⟨t⟩ msg).length = (if t.rank ≤ op.rank then 1 else 0) ∧
    (logCall Level.Debug ⟨Level.Warn⟩ msg).length = 0 ∧
    (logCall Level.Info ⟨Level.Warn⟩ msg).length = 0 ∧
    (logCall Level.Warn ⟨Level.Warn⟩ msg).length = 1 ∧
    (logCall Level.Error ⟨Level.Warn⟩ msg).length = 1 := by
  cases op <;> cases t <;>
    simp [logCall, loggerDebug, loggerInfo, loggerWarn, loggerError,
      Level.isAllowed, Level.rank]

/-- C8: construction with unparseable level text fails with the fixed-shape
diagnostic embedding the parse error description and the offending text in
its `level`, `message` and `ts` fields — but the `ts` field holds the
RFC3339Nano layout constant, identical whatever the construction instant,
rather than a timestamp; construction with a valid level text succeeds. -/
theorem loggerNew_ts_field_is_layout_constant :
    (∀ now now' t, loggerNew now t = loggerNew now' t) ∧
    loggerNew "2024-05-01T10:00:00.000000001Z" "bogus" =
      Except.error
        "\x7b\"level\":\"error\",\"message\":\"invalid log level: bogus\",\"ts\":\"2006-01-02T15:04:05.999999999Z07:00\"\x7d" ∧
    loggerNew "2024-05-01T10:00:00.000000001Z" "info" = Except.ok ⟨Level.Info⟩ :=
  ⟨fun _ _ _ => rfl, rfl, rfl⟩

/-- C9: level parsing succeeds exactly on the four level names,
case-insensitively, and for every successful parse the parsed level's
canonical text is the lowercase form of the input. -/
theorem parse_accepts_exactly_four_levels (s : String) :
    ((Level.parse s).isSome = true ↔
      (asciiLower s = "debug" ∨ asciiLower s = "info" ∨
       asciiLower s = "warn" ∨ asciiLower s = "error")) ∧
    (∀ l, Level.parse s = some l → Level.toText l = asciiLower s) := by
  by_cases h1 : asciiLower s = "debug" <;>
  by_cases h2 : asciiLower s = "info" <;>
  by_cases h3 : asciiLower s = "warn" <;>
  by_cases h4 : asciiLower s = "error" <;>
  simp_all [Level.parse, Level.toText]

/-- Witness for parse_accepts_exactly_four_levels: parsing "WaRn" succeeds
and round-trips to "warn", parsing "DEBUG" succeeds, and parsing
"verbose" fails. -/
theorem parse_accepts_exactly_four_levels_witness :
    Level.toText Level.Warn = asciiLower "WaRn" ∧
    (Level.parse "DEBUG").isSome = true ∧
    ¬((Level.parse "verbose").isSome = true) :=
  ⟨(parse_accepts_exactly_four_levels "WaRn").2 Level.Warn (by decide),
   (parse_accepts_exactly_four_levels "DEBUG").1.mpr (by decide),
   fun h => by
    have := (parse_accepts_exactly_four_levels "verbose").1.mp h
    revert this
    decide⟩

/-- C10: with the threshold at Debug, a Debug call writes one record whose
msg field is the literal string "msg", the caller's message being attached
under the slog bad-key marker instead, while an Info call writes the
caller's message as the msg field. -/
theorem debug_logs_literal_msg_string :
    (loggerDebug ⟨Level.Debug⟩ "connection established").map Record.msg = ["msg"] ∧
    (loggerDebug ⟨Level.Debug⟩ "connection established").map Record.attrs =
      [[("!BADKEY", AttrValue.str "connection established")]] ∧
    (loggerInfo ⟨Level.Debug⟩ "connection established").map Record.msg =
      ["connection established"] :=
  ⟨rfl, rfl, rfl⟩

/-- C3: for any RegisterClient or IssueCert call whose wrapped service
fails, exactly one Warn-level record is emitted, that record carries both
a duration and an error field, and the error handed back to the caller is
the wrapped service's error. -/
theorem error_path_emits_one_warn_record
    (svc : String → Client → Client × Option GoErr)
    (csvc : String → String → String → Cert × Option GoErr)
    (dur dur' token token' thingID ttl : String) (client : Client)
    (c : Client) (ct : Cert) (e e' : GoErr)
    (h : svc token client = (c, some e))
    (h' : csvc token' thingID ttl = (ct, some e')) :
    ((usersRegisterClient svc dur token client).err = some e ∧
     (usersRegisterClient svc dur token client).emitted.map Record.level =
       [Level.Warn] ∧
     (usersRegisterClient svc dur token client).emitted.all
       (fun r => r.hasKey "duration" && r.hasKey "error") = true) ∧
    ((certsIssueCert csvc dur' token' thingID ttl).err = some e' ∧
     (certsIssueCert csvc dur' token' thingID ttl).emitted.map Record.level =
       [Level.Warn] ∧
     (certsIssueCert csvc dur' token' thingID ttl).emitted.all
       (fun r => r.hasKey "duration" && r.hasKey "error") = true) := by
  simp [usersRegisterClient, certsIssueCert, h, h', Record.hasKey]

/-- Witness for error_path_emits_one_warn_record at failing RegisterClient
and IssueCert services. -/
theorem error_path_emits_one_warn_record_witness :
    ((usersRegisterClient svcRegisterFail "1ms" "tok" ⟨"jane", ""⟩).err =
       some ⟨"not found"⟩ ∧
     (usersRegisterClient svcRegisterFail "1ms" "tok" ⟨"jane", ""⟩).emitted.map
       Record.level = [Level.Warn] ∧
     (usersRegisterClient svcRegisterFail "1ms" "tok" ⟨"jane", ""⟩).emitted.all
       (fun r => r.hasKey "duration" && r.hasKey "error") = true) ∧
    ((certsIssueCert svcCertFail "2ms" "tok2" "th-1" "1h").err =
       some ⟨"unauthorized"⟩ ∧
     (certsIssueCert svcCertFail "2ms" "tok2" "th-1" "1h").emitted.map
       Record.level = [Level.Warn] ∧
     (certsIssueCert svcCertFail "2ms" "tok2" "th-1" "1h").emitted.all
       (fun r => r.hasKey "duration" && r.hasKey "error") = true) :=
  error_path_emits_one_warn_record svcRegisterFail svcCertFail
    "1ms" "2ms" "tok" "tok2" "th-1" "1h" ⟨"jane", ""⟩ ⟨"", ""⟩ ⟨""⟩
    ⟨"not found"⟩ ⟨"unauthorized"⟩ rfl rfl

/-- C4: RegisterClient and bootstrap Add emit exactly one record per call,
whatever the outcome; when the wrapped call succeeds the single record is
Info-level, carries a duration field, and carries no error field. -/
theorem exactly_one_record_per_call
    (svc : String → Client → Client × Option GoErr)
    (bsvc : String → BootConfig → BootConfig × Option GoErr)
    (dur dur' token token' : String) (client : Client) (bcfg : BootConfig) :
    (usersRegisterClient svc dur token client).emitted.length = 1 ∧
    (bootstrapAdd bsvc dur' token' bcfg).emitted.length = 1 ∧
    ((svc token client).2 = none →
      (usersRegisterClient svc dur token client).emitted.map Record.level =
        [Level.Info] ∧
      (usersRegisterClient svc dur token client).emitted.all
        (fun r => r.hasKey "duration" && !(r.hasKey "error")) = true) ∧
    ((bsvc token' bcfg).2 = none →
      (bootstrapAdd bsvc dur' token' bcfg).emitted.map Record.level =
        [Level.Info] ∧
      (bootstrapAdd bsvc dur' token' bcfg).emitted.all
        (fun r => r.hasKey "duration" && !(r.hasKey "error")) = true) := by
  rcases hs : (svc token client).2 with _ | e <;>
  rcases hb : (bsvc token' bcfg).2 with _ | e' <;>
  simp [usersRegisterClient, bootstrapAdd, hs, hb, Record.hasKey]

/-- Witness for exactly_one_record_per_call at succeeding services. -/
theorem exactly_one_record_per_call_witness :
    (svcRegisterOk "tok" ⟨"jane", ""⟩).2 = none ∧
    (svcBootOk "tok2" ⟨"th-1"⟩).2 = none ∧
    ((usersRegisterClient svcRegisterOk "1ms" "tok" ⟨"jane", ""⟩).emitted.length =
       1 ∧
     (usersRegisterClient svcRegisterOk "1ms" "tok" ⟨"jane", ""⟩).emitted.map
       Record.level = [Level.Info] ∧
     (usersRegisterClient svcRegisterOk "1ms" "tok" ⟨"jane", ""⟩).emitted.all
       (fun r => r.hasKey "duration" && !(r.hasKey "error")) = true) ∧
    ((bootstrapAdd svcBootOk "2ms" "tok2" ⟨"th-1"⟩).emitted.length = 1 ∧
     (bootstrapAdd svcBootOk "2ms" "tok2" ⟨"th-1"⟩).emitted.map Record.level =
       [Level.Info] ∧
     (bootstrapAdd svcBootOk "2ms" "tok2" ⟨"th-1"⟩).emitted.all
       (fun r => r.hasKey "duration" && !(r.hasKey "error")) = true) := by
  have H := exactly_one_record_per_call svcRegisterOk svcBootOk
    "1ms" "2ms" "tok" "tok2" ⟨"jane", ""⟩ ⟨"th-1"⟩
  exact ⟨rfl, rfl,
    ⟨H.1, (H.2.2.1 rfl).1, (H.2.2.1 rfl).2⟩,
    ⟨H.2.1, (H.2.2.2 rfl).1, (H.2.2.2 rfl).2⟩⟩

/-- C5 counterexample: IssueToken's attribute set includes the
result-derived access_type field — present on success when the access
type is non-empty — yet a failed call whose token holds the zero-value
access type omits the field from the Warn record instead of carrying it
with the zero value. -/
theorem issueToken_omits_access_type_on_failure :
    (usersIssueToken svcTokenZeroFail "1ms" "user" "secret" "dom").toOption.map
      (fun o => (o.err, o.emitted.map Record.level,
        o.emitted.all (fun r => r.hasKey "access_type"))) =
      some (some ⟨"authentication failed"⟩, [Level.Warn], false) ∧
    (usersIssueToken svcTokenBearerOk "1ms" "user" "secret" "dom").toOption.map
      (fun o => o.emitted.all (fun r => r.hasKey "access_type")) = some true :=
  ⟨rfl, rfl⟩

/-- C5 amended: for the decorator operations that draw fields from the
result unconditionally — RegisterClient's user group and bootstrap Add's
thing_id — a failed call that left the result at its zero value still
carries those fields in the emitted Warn record, holding the zero
(empty-string) values rather than being omitted. -/
theorem result_fields_hold_zero_value_on_failure
    (svc : String → Client → Client × Option GoErr)
    (bsvc : String → BootConfig → BootConfig × Option GoErr)
    (dur dur' token token' : String) (client : Client) (bcfg : BootConfig)
    (e e' : GoErr)
    (h : svc token client = (⟨"", ""⟩, some e))
    (h' : bsvc token' bcfg = (⟨""⟩, some e')) :
    (usersRegisterClient svc dur token client).emitted =
      [⟨Level.Warn, "Register client failed to complete successfully",
        [("duration", AttrValue.str dur),
         ("user", AttrValue.group
           [("name", AttrValue.str ""), ("id", AttrValue.str "")]),
         ("error", AttrValue.str e.msg)]⟩] ∧
    (bootstrapAdd bsvc dur' token' bcfg).emitted =
      [⟨Level.Warn, "Add failed to complete successfully",
        [("duration", AttrValue.str dur'), ("thing_id", AttrValue.str ""),
         ("error", AttrValue.str e'.msg)]⟩] := by
  simp [usersRegisterClient, bootstrapAdd, h, h']

/-- Witness for result_fields_hold_zero_value_on_failure at failing
services returning zero-value results. -/
theorem result_fields_hold_zero_value_on_failure_witness :
    (usersRegisterClient svcRegisterFail "1ms" "tok" ⟨"jane", ""⟩).emitted =
      [⟨Level.Warn, "Register client failed to complete successfully",
        [("duration", AttrValue.str "1ms"),
         ("user", AttrValue.group
           [("name", AttrValue.str ""), ("id", AttrValue.str "")]),
         ("error", AttrValue.str "not found")]⟩] ∧
    (bootstrapAdd svcBootFail "2ms" "tok2" ⟨"th-1"⟩).emitted =
      [⟨Level.Warn, "Add failed to complete successfully",
        [("duration", AttrValue.str "2ms"), ("thing_id", AttrValue.str ""),
         ("error", AttrValue.str "conflict")]⟩] :=
  result_fields_hold_zero_value_on_failure svcRegisterFail svcBootFail
    "1ms" "2ms" "tok" "tok2" ⟨"jane", ""⟩ ⟨"th-1"⟩
    ⟨"not found"⟩ ⟨"conflict"⟩ rfl rfl

/-- C6 counterexample: a failed IssueCert call emits its Warn record with
message "Method issue_cert completed with error.", which does not end in
" failed to complete successfully" as the claimed message template
requires, and a successful call uses "Method issue_cert completed without
errors.". -/
theorem issueCert_failure_message_not_template :
    (certsIssueCert svcCertFail "1ms" "tok" "th-1" "1h").emitted.map
      (fun r => (r.level, r.msg)) =
      [(Level.Warn, "Method issue_cert completed with error.")] ∧
    strEndsWith "Method issue_cert completed with error."
      " failed to complete successfully" = false ∧
    (certsIssueCert svcCertOk "1ms" "tok" "th-1" "1h").emitted.map
      (fun r => (r.level, r.msg)) =
      [(Level.Info, "Method issue_cert completed without errors.")] :=
  ⟨rfl, by decide, rfl⟩

/-- C6 amended: every decorator operation selects severity and the
presence of the error field solely by error presence; the users decorator
uses the "(Operation) failed to complete successfully" and "(Operation)
completed successfully" messages, while the certs decorator instead uses
"Method (operation) completed with error." and "Method (operation)
completed without errors.". -/
theorem severity_selected_by_error_presence
    (svc : String → Client → Client × Option GoErr)
    (csvc : String → String → String → Cert × Option GoErr)
    (dur dur' token token' thingID ttl : String) (client : Client) :
    ((usersRegisterClient svc dur token client).emitted.map
      (fun r => (r.level, r.msg, r.hasKey "error")) =
      [match (svc token client).2 with
       | some _ =>
         (Level.Warn, "Register client failed to complete successfully", true)
       | none =>
         (Level.Info, "Register client completed successfully", false)]) ∧
    ((certsIssueCert csvc dur' token' thingID ttl).emitted.map
      (fun r => (r.level, r.msg, r.hasKey "error")) =
      [match (csvc token' thingID ttl).2 with
       | some _ =>
         (Level.Warn, "Method issue_cert completed with error.", true)
       | none =>
         (Level.Info, "Method issue_cert completed without errors.", false)]) := by
  rcases hs : (svc token client).2 with _ | e <;>
  rcases hc : (csvc token' thingID ttl).2 with _ | e' <;>
  simp [usersRegisterClient, certsIssueCert, hs, hc, Record.hasKey]
